import Mathlib

/-!
Verification of the QProvisioner convergence engine
(`core/modules/qprovisioner/scripts/provision.py`).

The Python script is shallowly embedded: each side-effecting step is
recorded as an `Event`, the cluster environment (per-node probe results,
current network configuration, secret-store contents) is passed in
explicitly, and fallible operations return `Except String`.
-/

namespace QProvisioner

/-! ## String helpers mirroring the Python primitives -/

/-- Whitespace characters recognised by Python `str.split()` on the
inputs this script receives. -/
def wsChar (c : Char) : Bool := c = ' ' ∨ c = '\t' ∨ c = '\n' ∨ c = '\r'

/-- Helper for `pySplitWs`: splits a character list on whitespace runs,
dropping empty fields, accumulating the current field in reverse. -/
def splitWsAux : List Char → List Char → List String
  | [], acc => if acc = [] then [] else [String.mk acc.reverse]
  | c :: cs, acc =>
    if wsChar c then
      (if acc = [] then [] else [String.mk acc.reverse]) ++ splitWsAux cs []
    else splitWsAux cs (c :: acc)

/-- Python `str.split()` (split on whitespace runs, dropping empty fields). -/
def pySplitWs (s : String) : List String := splitWsAux s.toList []

/-- Helper for `parseFlips`: splits a character list on commas, keeping
empty fields, as Python `s.split(",")` does. -/
def splitCommaAux : List Char → List Char → List String
  | [], acc => [String.mk acc.reverse]
  | c :: cs, acc =>
    if c = ',' then String.mk acc.reverse :: splitCommaAux cs []
    else splitCommaAux cs (c :: acc)

/-- Python `s.split(",") if s else []`, as used for `floating_ip_addresses`. -/
def parseFlips (s : String) : List String :=
  if s = "" then [] else splitCommaAux s.toList []

/-- Python `s.replace(".", "")`. -/
def stripDots (s : String) : String :=
  ⟨s.toList.filter (fun c => c ≠ '.')⟩

/-- Removal of every non-digit character from a string (the spec's
"revision string with non-digit characters stripped"). -/
def removeNonDigits (s : String) : String :=
  ⟨s.toList.filter Char.isDigit⟩

/-- Python slice `s[:3]`. -/
def strTake3 (s : String) : String :=
  ⟨s.toList.take 3⟩

/-- Python `int(s)` on a string of decimal digits. -/
def pyIntOfDigits (s : String) : Nat :=
  s.toList.foldl (fun a c => a * 10 + (c.toNat - 48)) 0

/-- Python's substring test `pat in l`, on character lists. -/
def hasInfix (pat : List Char) : List Char → Bool
  | [] => decide (pat = [])
  | c :: rest => pat.isPrefixOf (c :: rest) || hasInfix pat rest

/-- Python's substring test `pat in s` on strings. -/
def containsStr (s pat : String) : Bool :=
  hasInfix pat.toList s.toList

/-! ## Cluster survey (`survey_node_state`, `get_qfsd_version`)

Each probed node is described by a `NodeProbe`: the outcome of
`get_qfsd_version` (`none` when the underlying `qq` command raised
`ProvisioningError`, otherwise the revision string extracted from the
output) and the outcome of `node_state_get` (`none` when the command
raised, otherwise its stdout). -/

structure NodeProbe where
  versionResult : Option String
  stateResult : Option String
deriving DecidableEq

/-- The four-way classification `survey_node_state` performs on a node's
`node_state_get` output (substring matching, in source order). -/
inductive NodeClass where
  | inQuorum
  | unconfigured
  | removed
  | outOfQuorum
deriving DecidableEq

/-- Classification of one node from its `node_state_get` outcome:
a raised `ProvisioningError` lands in `outOfQuorum`, otherwise the stdout
is matched for the substrings `ACTIVE`, `UNCONFIGURED`, `REMOVED`. -/
def classOf (p : NodeProbe) : NodeClass :=
  match p.stateResult with
  | none => .outOfQuorum
  | some out =>
    if containsStr out "ACTIVE" then .inQuorum
    else if containsStr out "UNCONFIGURED" then .unconfigured
    else if containsStr out "REMOVED" then .removed
    else .outOfQuorum

/-- The survey loop of `survey_node_state`: for each address, obtain the
node's revision (a failed command propagates as an error), abort if it
differs from the reference revision, otherwise classify the node into one
of the four lists. Returns `(in_quorum, unconfigured, removed, out_of_quorum)`. -/
def surveyFull (qfsd_version : String) (env : String → NodeProbe) :
    List String → Except String (List String × List String × List String × List String)
  | [] => .ok ([], [], [], [])
  | ip :: rest =>
    match (env ip).versionResult with
    | none => .error ("Command failed querying version of node " ++ ip)
    | some node_version =>
      if node_version ≠ qfsd_version then
        .error ("Node at " ++ ip ++ " has the wrong qfsd revision " ++ node_version)
      else
        match surveyFull qfsd_version env rest with
        | .error e => .error e
        | .ok (inq, unc, rem, outq) =>
          match classOf (env ip) with
          | .inQuorum => .ok (ip :: inq, unc, rem, outq)
          | .unconfigured => .ok (inq, ip :: unc, rem, outq)
          | .removed => .ok (inq, unc, ip :: rem, outq)
          | .outOfQuorum => .ok (inq, unc, rem, ip :: outq)

/-- `survey_node_state`: splits the whitespace-separated address string,
runs the survey loop, and returns only the in-quorum and out-of-quorum
lists (the unconfigured and removed lists are merely logged). -/
def survey_node_state (qfsd_version : String) (env : String → NodeProbe)
    (cluster_node_ip_addresses : String) : Except String (List String × List String) :=
  match surveyFull qfsd_version env (pySplitWs cluster_node_ip_addresses) with
  | .error e => .error e
  | .ok (inq, _, _, outq) => .ok (inq, outq)

/-! ## Declared configuration (`ProvisioningConfig`) -/

structure ProvisioningConfig where
  cluster_name : String
  admin_password : String
  product_type : String
  node_count : Nat
  node_ips_and_fault_domains : String
  swing_node_count : Nat
  swing_node_ip_addresses_and_fault_domains : String
  storage_uris : String
  soft_capacity_limit : String
  permanent_disk_count : String
  floating_ips : String
  netmask : String
  secret_ocid : String
  cluster_node_count_secret_id : String
  deployed_permanent_disk_count_secret_id : String
  cluster_soft_capacity_limit_secret_id : String
  provisioner_complete_secret_id : String
  dev_environment : String
  clustering_node_ocid : String
deriving DecidableEq

/-! ## Network configuration (`/v3/network` document)

Only the parts the script reads or writes are modelled: the list of
frontend networks, each optionally carrying a `floating_ip_ranges` list
(`none` models an entry without the nested
`addresses.host_addresses.floating_ip_ranges` keys, which the script's
`.get(..., ...)` chain treats as an empty range). -/

structure FrontendNetwork where
  floating_ip_ranges : Option (List String)
deriving DecidableEq

structure NetworkConfig where
  frontend_networks : List FrontendNetwork
deriving DecidableEq

/-! ## Observable events

Each cluster- or secret-store-mutating command, read query, and wait loop
of the script is recorded as one `Event`, in program order. -/

inductive Event where
  | createCluster (nodes : List String)
  | updateSecret (secretId : String) (value : String)
  | login
  | setTunable (ms : String)
  | setMonitoring
  | applyNetworkPut (flips : List String) (netmask : String)
  | pollNetworkStatus
  | quorumAbandon
  | waitQuorum
  | modifyMembership (nodes : List String)
  | pollMembership (targetLen : Nat)
  | getNetworkConfig
  | putNetworkConfig (cfg : NetworkConfig)
  | getSecret (secretId : String)
  | capacityClampSet (limit : String)
deriving DecidableEq

/-! ## Floating-IP convergence
(`apply_initial_floating_ips`, `maybe_update_floating_ips`) -/

/-- `apply_initial_floating_ips`: an empty floating-IP list returns
immediately; otherwise the network document is PUT and the network-status
endpoint is polled until it reports floating addresses. -/
def apply_initial_floating_ips (flips : List String) (netmask : String) : List Event :=
  if flips = [] then []
  else [.applyNetworkPut flips netmask, .pollNetworkStatus]

/-- `maybe_update_floating_ips`: gated on the qfsd revision
(`not qfsd_version or int(qfsd_version.replace(".", "")[:3]) < 751`);
past the gate it fetches the current network config, takes the
apply-initial path when no frontend network or no floating range exists,
and otherwise replaces or clears the range when it differs from the
declared list. Returns the event trace and the network config as left by
the function. -/
def maybe_update_floating_ips (floating_ip_addresses : String) (netmask : String)
    (qfsd_version : String) (current_config : NetworkConfig) :
    List Event × NetworkConfig :=
  if qfsd_version = "" ∨ pyIntOfDigits (strTake3 (stripDots qfsd_version)) < 751 then
    ([], current_config)
  else
    let new_flips := parseFlips floating_ip_addresses
    match current_config.frontend_networks with
    | [] => (.getNetworkConfig :: apply_initial_floating_ips new_flips netmask, current_config)
    | fn :: rest =>
      let current_flips := fn.floating_ip_ranges.getD []
      if current_flips.length = 0 then
        (.getNetworkConfig :: apply_initial_floating_ips new_flips netmask, current_config)
      else if current_flips ≠ new_flips then
        let newCfg : NetworkConfig :=
          if new_flips = [] then ⟨[]⟩
          else ⟨{ fn with floating_ip_ranges := some new_flips } :: rest⟩
        ([.getNetworkConfig, .putNetworkConfig newCfg, .waitQuorum], newCfg)
      else ([.getNetworkConfig], current_config)

/-! ## Membership convergence
(`update_cluster_membership` and the node add/remove block of
`handle_existing_cluster`) -/

/-- `update_cluster_membership`: one full-replacement membership command
over `primary addresses[:node_count] ++ swing addresses`, a wait for new
quorum, a poll until the reported membership length reaches
`node_count + swing_node_count`, then persistence of the primary node
count (`len(new_node_membership) - len(swing)`) to the secret store. -/
def update_cluster_membership (node_count : Nat) (swing_node_count : Nat)
    (node_ips_and_fault_domains : String) (swing_node_ips_and_fault_domains : String)
    (cluster_node_count_secret_id : String) : List Event :=
  let ips_and_fault_domains := pySplitWs node_ips_and_fault_domains
  let swing_ips_and_fault_domains := pySplitWs swing_node_ips_and_fault_domains
  let new_node_membership := ips_and_fault_domains.take node_count ++ swing_ips_and_fault_domains
  [.modifyMembership new_node_membership,
   .waitQuorum,
   .pollMembership (node_count + swing_node_count),
   .updateSecret cluster_node_count_secret_id
     (toString (new_node_membership.length - swing_ips_and_fault_domains.length))]

/-- The node add/remove block of `handle_existing_cluster`
(lines 466-504). `provision_swing_pool` is the raw template string the
caller passes (the function's `bool` annotation notwithstanding): Python
truthiness of a string is "non-empty", and the later branches compare it
literally against `"true"` and `"false"`. -/
def handle_existing_cluster_membership (in_quorum_nodes : List String)
    (in_quorum_swing_nodes : List String) (provision_swing_pool : String)
    (config : ProvisioningConfig) : Except String (List Event) :=
  if in_quorum_nodes.length ≠ config.node_count then
    if (provision_swing_pool ≠ "" ∧ in_quorum_swing_nodes.length = 0) ∨
        (provision_swing_pool = "" ∧ in_quorum_swing_nodes.length > 0) then
      .error "Cannot change node count and change swing pool state at the same time"
    else
      .ok (update_cluster_membership config.node_count
        (if provision_swing_pool ≠ "" then config.swing_node_count else 0)
        config.node_ips_and_fault_domains
        (if provision_swing_pool ≠ "" then config.swing_node_ip_addresses_and_fault_domains else "")
        config.cluster_node_count_secret_id)
  else if provision_swing_pool = "true" ∧ in_quorum_swing_nodes.length ≠ config.swing_node_count then
    .ok (update_cluster_membership config.node_count config.swing_node_count
      config.node_ips_and_fault_domains config.swing_node_ip_addresses_and_fault_domains
      config.cluster_node_count_secret_id)
  else if provision_swing_pool = "false" ∧ in_quorum_swing_nodes.length > 0 then
    .ok (update_cluster_membership config.node_count 0
      config.node_ips_and_fault_domains "" config.cluster_node_count_secret_id)
  else
    .ok []

/-! ## Capacity convergence (the capacity block of `handle_existing_cluster`) -/

/-- The capacity-increase block of `handle_existing_cluster`
(lines 519-538): read the recorded limit from the secret store; when the
declared limit strictly exceeds it (integer comparison), issue the
capacity-clamp command, wait for new quorum, and only then update the
secret store. -/
def handle_existing_cluster_capacity (current_capacity_in_tb : String)
    (soft_capacity_limit : String) (cluster_soft_capacity_limit_secret_id : String) :
    List Event :=
  .getSecret cluster_soft_capacity_limit_secret_id ::
    (if pyIntOfDigits current_capacity_in_tb < pyIntOfDigits soft_capacity_limit then
      [.capacityClampSet soft_capacity_limit, .waitQuorum,
       .updateSecret cluster_soft_capacity_limit_secret_id soft_capacity_limit]
    else [])

/-! ## Bootstrap (`create_cluster`) -/

/-- `create_cluster`: no-op at a declared node count of 0; otherwise the
create command over the first `node_count` declared addresses, the three
secret-store writes, login, the 10 000 ms tunable, optional staging
monitoring, the initial floating-IP application, and a forced quorum
restart followed by the wait for new quorum. -/
def create_cluster (config : ProvisioningConfig) : List Event :=
  if config.node_count = 0 then []
  else
    let ips_and_fault_domains := pySplitWs config.node_ips_and_fault_domains
    let flips := parseFlips config.floating_ips
    let new_nodes := ips_and_fault_domains.take config.node_count
    [.createCluster new_nodes,
     .updateSecret config.cluster_node_count_secret_id (toString new_nodes.length),
     .updateSecret config.deployed_permanent_disk_count_secret_id config.permanent_disk_count,
     .updateSecret config.cluster_soft_capacity_limit_secret_id config.soft_capacity_limit,
     .login,
     .setTunable "10000"]
    ++ (if config.dev_environment = "true" then [.setMonitoring] else [])
    ++ apply_initial_floating_ips flips config.netmask
    ++ [.quorumAbandon, .waitQuorum]

/-! ## Top-level decision (`main`, lines 586-617) -/

inductive TopPath where
  | bootstrap
  | reconcile
deriving DecidableEq

/-- The decision logic of `main` after the surveys: any out-of-quorum node
in either pool aborts; otherwise bootstrap is chosen exactly when both
in-quorum lists are empty, and reconcile otherwise. -/
def topDecision (in_quorum_nodes out_of_quorum_nodes : List String)
    (in_quorum_swing_nodes out_of_quorum_swing_nodes : List String) :
    Except String TopPath :=
  if out_of_quorum_nodes ≠ [] then
    .error "Found out of quorum nodes, abort operation"
  else if out_of_quorum_swing_nodes ≠ [] then
    .error "Found out of quorum swing pool nodes, abort operation"
  else if in_quorum_nodes = [] ∧ in_quorum_swing_nodes = [] then
    .ok .bootstrap
  else
    .ok .reconcile

/-! ## General lemmas about the survey -/

/-- A successful survey returns, for each of the four classes, exactly the
probed addresses of that class, in probe order. -/
theorem surveyFull_ok_eq (qv : String) (env : String → NodeProbe) (ips : List String) :
    ∀ a b c d, surveyFull qv env ips = .ok (a, b, c, d) →
      a = ips.filter (fun x => decide (classOf (env x) = NodeClass.inQuorum))
      ∧ b = ips.filter (fun x => decide (classOf (env x) = NodeClass.unconfigured))
      ∧ c = ips.filter (fun x => decide (classOf (env x) = NodeClass.removed))
      ∧ d = ips.filter (fun x => decide (classOf (env x) = NodeClass.outOfQuorum)) := by
  induction ips with
  | nil =>
    intro a b c d h
    simp only [surveyFull, Except.ok.injEq, Prod.mk.injEq] at h
    obtain ⟨h1, h2, h3, h4⟩ := h
    subst h1; subst h2; subst h3; subst h4
    simp
  | cons ip rest ih =>
    intro a b c d h
    rw [surveyFull] at h
    cases hv : (env ip).versionResult with
    | none =>
      rw [hv] at h
      simp at h
    | some v =>
      rw [hv] at h
      dsimp only at h
      by_cases hvq : v ≠ qv
      · rw [if_pos hvq] at h
        simp at h
      · rw [if_neg hvq] at h
        cases hr : surveyFull qv env rest with
        | error e =>
          rw [hr] at h
          simp at h
        | ok t =>
          obtain ⟨a', b', c', d'⟩ := t
          rw [hr] at h
          dsimp only at h
          obtain ⟨e1, e2, e3, e4⟩ := ih a' b' c' d' hr
          cases hc2 : classOf (env ip) <;>
          · rw [hc2] at h
            dsimp only at h
            simp only [Except.ok.injEq, Prod.mk.injEq] at h
            obtain ⟨h1, h2, h3, h4⟩ := h
            subst h1; subst h2; subst h3; subst h4
            subst e1; subst e2; subst e3; subst e4
            simp [List.filter_cons, hc2]

/-- If any probed node's revision query fails or returns a revision other
than the reference one, the whole survey loop aborts with an error. -/
theorem surveyFull_error_of_bad (qv : String) (env : String → NodeProbe) (ips : List String)
    (ip : String) (hmem : ip ∈ ips)
    (hbad : (env ip).versionResult = none ∨
      ∃ v, (env ip).versionResult = some v ∧ v ≠ qv) :
    ∃ msg, surveyFull qv env ips = .error msg := by
  induction ips with
  | nil => cases hmem
  | cons hd rest ih =>
    rw [surveyFull]
    cases hv : (env hd).versionResult with
    | none => exact ⟨_, rfl⟩
    | some v =>
      dsimp only
      by_cases hvq : v ≠ qv
      · rw [if_pos hvq]
        exact ⟨_, rfl⟩
      · rw [if_neg hvq]
        have hiprest : ip ∈ rest := by
          rcases List.mem_cons.mp hmem with h | h
          · subst h
            rcases hbad with hb | ⟨w, hw, hwq⟩
            · rw [hv] at hb; cases hb
            · rw [hv] at hw
              cases hw
              exact absurd hwq hvq
          · exact h
        obtain ⟨msg, hmsg⟩ := ih hiprest
        rw [hmsg]
        exact ⟨msg, rfl⟩

/-! ## Concrete environments used as witnesses and counterexamples -/

/-- An environment in which every node reports revision "1" and state
`UNCONFIGURED`. -/
def envUnconfigured : String → NodeProbe := fun _ => ⟨some "1", some "UNCONFIGURED"⟩

/-- An environment in which every node reports revision "2" (with an
`UNCONFIGURED` state it would report if asked). -/
def envWrongRevision : String → NodeProbe := fun _ => ⟨some "2", some "UNCONFIGURED"⟩

/-- An environment with one `ACTIVE` node and every other node failing its
state query. -/
def envMixed : String → NodeProbe := fun ip =>
  if ip = "10.0.0.1" then ⟨some "1", some "ACTIVE"⟩ else ⟨some "1", none⟩

/-! ## Claim C4: the survey partition -/

/-- C4 counterexample: with all revisions equal, a single probed address
whose state is `UNCONFIGURED` is returned in neither of the two lists, so
the pair returned by the survey is not an exhaustive partition of the
probed address set. -/
theorem survey_partition_counterexample :
    survey_node_state "1" envUnconfigured "10.0.0.1" = .ok ([], [])
    ∧ "10.0.0.1" ∈ pySplitWs "10.0.0.1" := by
  exact ⟨rfl, by decide⟩

/-- C4 (amended): for any successful survey, a probed address is in the
first returned list iff it is classified in-quorum and in the second iff
classified out-of-quorum; the two lists are disjoint, and addresses
classified unconfigured or removed appear in neither. -/
theorem survey_partition_amended (qv : String) (env : String → NodeProbe) (addrs : String)
    (inq outq : List String) (h : survey_node_state qv env addrs = .ok (inq, outq)) :
    ∀ ip ∈ pySplitWs addrs,
      (ip ∈ inq ↔ classOf (env ip) = NodeClass.inQuorum)
      ∧ (ip ∈ outq ↔ classOf (env ip) = NodeClass.outOfQuorum)
      ∧ ¬(ip ∈ inq ∧ ip ∈ outq)
      ∧ ((classOf (env ip) = NodeClass.unconfigured ∨ classOf (env ip) = NodeClass.removed)
          → ip ∉ inq ∧ ip ∉ outq) := by
  unfold survey_node_state at h
  cases hr : surveyFull qv env (pySplitWs addrs) with
  | error e =>
    rw [hr] at h
    simp at h
  | ok t =>
    obtain ⟨a, b, c, d⟩ := t
    rw [hr] at h
    dsimp only at h
    simp only [Except.ok.injEq, Prod.mk.injEq] at h
    obtain ⟨h1, h2⟩ := h
    subst h1; subst h2
    obtain ⟨e1, e2, e3, e4⟩ := surveyFull_ok_eq qv env (pySplitWs addrs) a b c d hr
    subst e1; subst e4
    intro ip hip
    refine ⟨?_, ?_, ?_, ?_⟩
    · simp [List.mem_filter, hip]
    · simp [List.mem_filter, hip]
    · rintro ⟨hA, hB⟩
      rw [List.mem_filter] at hA hB
      have mA : classOf (env ip) = NodeClass.inQuorum := by simpa using hA.2
      have mB : classOf (env ip) = NodeClass.outOfQuorum := by simpa using hB.2
      rw [mA] at mB
      simp at mB
    · rintro (hcl | hcl) <;> constructor <;> simp [List.mem_filter, hcl]

/-- C4 witness: a concrete successful survey (one `ACTIVE` node, one node
whose state query fails) instantiating the amended partition statement at
the failing node. -/
theorem survey_partition_amended_witness :
    ("10.0.0.2" ∈ ["10.0.0.1"] ↔ classOf (envMixed "10.0.0.2") = NodeClass.inQuorum)
    ∧ ("10.0.0.2" ∈ ["10.0.0.2"] ↔ classOf (envMixed "10.0.0.2") = NodeClass.outOfQuorum)
    ∧ ¬("10.0.0.2" ∈ ["10.0.0.1"] ∧ "10.0.0.2" ∈ ["10.0.0.2"])
    ∧ ((classOf (envMixed "10.0.0.2") = NodeClass.unconfigured
          ∨ classOf (envMixed "10.0.0.2") = NodeClass.removed)
        → "10.0.0.2" ∉ ["10.0.0.1"] ∧ "10.0.0.2" ∉ ["10.0.0.2"]) :=
  survey_partition_amended "1" envMixed "10.0.0.1 10.0.0.2" ["10.0.0.1"] ["10.0.0.2"]
    (by rfl) "10.0.0.2" (by decide)

/-! ## Claim C9: the revision pre-check aborts the survey -/

/-- C9: during a survey, any probed node whose revision query fails or
whose revision differs from the reference aborts the entire survey with an
error — for every possible quorum state of that node (the environment is
universally quantified, so the node may be unconfigured, removed, or
unreachable); in particular no partition is returned, so the node is never
classified out-of-quorum. -/
theorem survey_version_precheck (qv : String) (env : String → NodeProbe) (addrs ip : String)
    (hmem : ip ∈ pySplitWs addrs)
    (hbad : (env ip).versionResult = none ∨
      ∃ v, (env ip).versionResult = some v ∧ v ≠ qv) :
    ∃ msg, survey_node_state qv env addrs = .error msg := by
  obtain ⟨msg, hmsg⟩ := surveyFull_error_of_bad qv env (pySplitWs addrs) ip hmem hbad
  refine ⟨msg, ?_⟩
  unfold survey_node_state
  rw [hmsg]

/-- C9 witness: a node at the wrong revision (which would report
`UNCONFIGURED` if its state were queried) makes the survey abort. -/
theorem survey_version_precheck_witness :
    ∃ msg, survey_node_state "1" envWrongRevision "10.0.0.1" = .error msg :=
  survey_version_precheck "1" envWrongRevision "10.0.0.1" "10.0.0.1" (by decide)
    (Or.inr ⟨"2", rfl, by decide⟩)

/-! ## Claim C3: the top-level decision -/

/-- C3: when neither pool reports out-of-quorum nodes, the engine chooses
bootstrap exactly when both in-quorum lists are empty and reconcile
exactly otherwise — one of the two, never both, never neither. -/
theorem top_decision_exclusive (inq outq inqs outqs : List String)
    (h1 : outq = []) (h2 : outqs = []) :
    (topDecision inq outq inqs outqs = .ok .bootstrap ↔ (inq = [] ∧ inqs = []))
    ∧ (topDecision inq outq inqs outqs = .ok .reconcile ↔ ¬(inq = [] ∧ inqs = [])) := by
  subst h1; subst h2
  unfold topDecision
  by_cases hb : inq = [] ∧ inqs = [] <;> simp [hb]

/-- C3 witness: one in-quorum primary node routes to reconcile and not to
bootstrap. -/
theorem top_decision_exclusive_witness :
    (topDecision ["10.0.0.1"] [] [] [] = .ok .bootstrap
      ↔ ((["10.0.0.1"] : List String) = [] ∧ ([] : List String) = []))
    ∧ (topDecision ["10.0.0.1"] [] [] [] = .ok .reconcile
      ↔ ¬((["10.0.0.1"] : List String) = [] ∧ ([] : List String) = [])) :=
  top_decision_exclusive ["10.0.0.1"] [] [] [] rfl rfl

/-! ## Claim C6: capacity convergence -/

/-- C6: the capacity block issues the clamp command exactly when the
declared limit, read as an integer, strictly exceeds the secret-store
value; in that case the command and the quorum wait precede the
secret-store update, and otherwise nothing but the secret read happens. -/
theorem capacity_convergence (current declared sid : String) :
    (pyIntOfDigits current < pyIntOfDigits declared →
      handle_existing_cluster_capacity current declared sid =
        [.getSecret sid, .capacityClampSet declared, .waitQuorum, .updateSecret sid declared])
    ∧ (¬ pyIntOfDigits current < pyIntOfDigits declared →
      handle_existing_cluster_capacity current declared sid = [.getSecret sid]) := by
  unfold handle_existing_cluster_capacity
  constructor <;> intro h <;> simp [h]

/-- C6 witness: a strictly larger declared limit triggers the full
sequence; an equal one is a no-op. -/
theorem capacity_convergence_witness :
    handle_existing_cluster_capacity "100" "150" "csec" =
      [.getSecret "csec", .capacityClampSet "150", .waitQuorum, .updateSecret "csec" "150"]
    ∧ handle_existing_cluster_capacity "150" "150" "csec" = [.getSecret "csec"] :=
  ⟨(capacity_convergence "100" "150" "csec").1 (by decide),
   (capacity_convergence "150" "150" "csec").2 (by decide)⟩

/-! ## Concrete declared configurations for the scenario claims -/

/-- A declared configuration shared by the concrete scenarios below. -/
def baseConfig : ProvisioningConfig :=
  { cluster_name := "CLUSTER"
    admin_password := "pw"
    product_type := "ACTIVE_WITH_STANDBY"
    node_count := 3
    node_ips_and_fault_domains := "p1,0 p2,1 p3,2"
    swing_node_count := 0
    swing_node_ip_addresses_and_fault_domains := ""
    storage_uris := "https://bucket1"
    soft_capacity_limit := "100"
    permanent_disk_count := "12"
    floating_ips := ""
    netmask := "255.255.255.0"
    secret_ocid := "ocid-kv"
    cluster_node_count_secret_id := "ncsec"
    deployed_permanent_disk_count_secret_id := "dsec"
    cluster_soft_capacity_limit_secret_id := "csec"
    provisioner_complete_secret_id := "psec"
    dev_environment := "false"
    clustering_node_ocid := "ocid-node" }

/-- Declared state for the C1 scenario: 5 primary nodes, swing disabled. -/
def growConfig : ProvisioningConfig :=
  { baseConfig with
    node_count := 5
    node_ips_and_fault_domains := "p1,0 p2,1 p3,2 p4,0 p5,1" }

/-- Declared state for the C2 scenario: 4 primary nodes, one swing node
declared. -/
def growSwingConfig : ProvisioningConfig :=
  { baseConfig with
    node_count := 4
    node_ips_and_fault_domains := "p1,0 p2,1 p3,2 p4,0"
    swing_node_count := 1
    swing_node_ip_addresses_and_fault_domains := "s1,0" }

/-! ## Claim C1: growing an in-quorum cluster with the swing pool disabled -/

/-- C1: with 3 primary nodes in quorum, declared node_count 5, swing pool
not requested (template string "false") and zero swing nodes in quorum,
the membership block does not issue the replace-membership command at all:
because the non-empty string "false" is truthy, the simultaneous-change
guard fires and the reconcile aborts with an error, contradicting both the
claim and the source's own guard comment. -/
theorem membership_growth_swing_disabled_raises :
    handle_existing_cluster_membership ["p1,0", "p2,1", "p3,2"] [] "false" growConfig =
      .error "Cannot change node count and change swing pool state at the same time" := rfl

/-! ## Claim C2: the simultaneous node-count/swing-state guard -/

/-- C2: the guard fires as claimed when the swing pool is requested
("true") with zero swing nodes in quorum, but in the symmetric case —
swing pool not requested ("false") with one swing node in quorum and a
primary-count mismatch — the reconcile does not raise: since the string
"false" is truthy, it issues the mutating replace-membership command (even
keeping the swing addresses), contradicting the claim and the source's own
guard comment. -/
theorem membership_simultaneous_guard_missed :
    handle_existing_cluster_membership ["p1,0", "p2,1", "p3,2"] [] "true" growSwingConfig =
      .error "Cannot change node count and change swing pool state at the same time"
    ∧ handle_existing_cluster_membership ["p1,0", "p2,1", "p3,2"] ["s1,0"] "false" growSwingConfig =
      .ok [.modifyMembership ["p1,0", "p2,1", "p3,2", "p4,0", "s1,0"],
           .waitQuorum, .pollMembership 5, .updateSecret "ncsec" "4"] :=
  ⟨rfl, rfl⟩

/-! ## Claim C5: the bootstrap scenario -/

/-- The C5 scenario configuration: 3 declared primary addresses,
node_count 3, swing disabled, no floating IPs. -/
def bootstrapConfig : ProvisioningConfig := baseConfig

/-- C5 counterexample: the full bootstrap trace for the 3-node scenario.
The node count "3" is persisted to the secret store immediately after the
create command — before the 10 000 ms tunable is set and before the quorum
wait — so the claimed order (create, tunable, wait, persist) does not
occur as a subsequence of the trace. -/
theorem bootstrap_sequence_counterexample :
    create_cluster bootstrapConfig =
      [.createCluster ["p1,0", "p2,1", "p3,2"],
       .updateSecret "ncsec" "3",
       .updateSecret "dsec" "12",
       .updateSecret "csec" "100",
       .login,
       .setTunable "10000",
       .quorumAbandon,
       .waitQuorum]
    ∧ ¬ ([Event.setTunable "10000", Event.waitQuorum,
          Event.updateSecret "ncsec" "3"].Sublist (create_cluster bootstrapConfig)) :=
  ⟨rfl, by decide⟩

/-- C5 (amended): for any configuration declaring node_count 3 with
exactly 3 primary addresses, bootstrap performs, in order: the
create-cluster command naming exactly those 3 addresses, the persistence
of "3" to the node-count secret, the 10 000 ms tunable, and the wait for
quorum Active. -/
theorem bootstrap_sequence_amended (cfg : ProvisioningConfig)
    (h1 : cfg.node_count = 3) (h2 : (pySplitWs cfg.node_ips_and_fault_domains).length = 3) :
    [Event.createCluster (pySplitWs cfg.node_ips_and_fault_domains),
     Event.updateSecret cfg.cluster_node_count_secret_id "3",
     Event.setTunable "10000",
     Event.waitQuorum].Sublist (create_cluster cfg) := by
  have htake : (pySplitWs cfg.node_ips_and_fault_domains).take 3
      = pySplitWs cfg.node_ips_and_fault_domains :=
    List.take_of_length_le (by rw [h2])
  have hts : toString (3 : Nat) = "3" := by decide
  simp only [create_cluster, h1]
  rw [if_neg (by decide : ¬(3 : Nat) = 0)]
  rw [htake, h2, hts]
  simp only [List.cons_append, List.nil_append]
  refine List.Sublist.cons₂ _ (List.Sublist.cons₂ _ ?_)
  refine List.Sublist.cons _ (List.Sublist.cons _ (List.Sublist.cons _ ?_))
  refine List.Sublist.cons₂ _ ?_
  have t1 : [Event.waitQuorum].Sublist [Event.quorumAbandon, Event.waitQuorum] :=
    (List.Sublist.refl _).cons _
  exact t1.trans (List.sublist_append_right _ _)

/-- C5 witness: the amended bootstrap order at the concrete 3-node
scenario configuration. -/
theorem bootstrap_sequence_amended_witness :
    [Event.createCluster (pySplitWs "p1,0 p2,1 p3,2"),
     Event.updateSecret "ncsec" "3",
     Event.setTunable "10000",
     Event.waitQuorum].Sublist (create_cluster bootstrapConfig) :=
  bootstrap_sequence_amended bootstrapConfig rfl (by decide)

/-! ## Lemmas about the floating-IP revision gate -/

/-- Past the revision gate, `maybe_update_floating_ips` always begins by
fetching the current network config, so its trace is non-empty. -/
theorem maybe_update_fst_cons (fips nm v : String) (cfg : NetworkConfig)
    (hg : ¬(v = "" ∨ pyIntOfDigits (strTake3 (stripDots v)) < 751)) :
    ∃ t, (maybe_update_floating_ips fips nm v cfg).fst = Event.getNetworkConfig :: t := by
  unfold maybe_update_floating_ips
  rw [if_neg hg]
  rcases cfg with ⟨fns⟩
  cases fns with
  | nil => exact ⟨_, rfl⟩
  | cons fn rest =>
    dsimp only
    by_cases h1 : (fn.floating_ip_ranges.getD []).length = 0
    · rw [if_pos h1]
      exact ⟨_, rfl⟩
    · rw [if_neg h1]
      by_cases h2 : fn.floating_ip_ranges.getD [] ≠ parseFlips fips
      · rw [if_pos h2]
        exact ⟨_, rfl⟩
      · rw [if_neg h2]
        exact ⟨_, rfl⟩

/-! ## Claim C7: the revision gate -/

/-- C7 counterexample: for revision "7.5.0.5" the digits-stripped integer
is 7505 ≥ 751, so by the claim floating-IP convergence should be
attempted; the code instead compares only the first three digits
(750 < 751) and silently skips, issuing nothing. -/
theorem flip_gate_counterexample :
    (maybe_update_floating_ips "10.1.1.1" "255.255.255.0" "7.5.0.5" ⟨[]⟩).fst = []
    ∧ 751 ≤ pyIntOfDigits (removeNonDigits "7.5.0.5") :=
  ⟨rfl, by decide⟩

/-- C7 (amended): for any revision string made of digits and dots (with at
least one digit when non-empty, matching what `get_qfsd_version` can
produce), floating-IP convergence is attempted iff the revision is
non-empty and the integer formed by the FIRST THREE characters of the
dot-stripped revision is at least 751. -/
theorem flip_gate_amended (fips nm v : String) (cfg : NetworkConfig)
    (_hv : v = "" ∨ (stripDots v ≠ "" ∧ v.toList.all (fun c => c.isDigit ∨ c = '.'))) :
    (maybe_update_floating_ips fips nm v cfg).fst ≠ [] ↔
      (v ≠ "" ∧ 751 ≤ pyIntOfDigits (strTake3 (stripDots v))) := by
  constructor
  · intro hne
    by_cases hg : v = "" ∨ pyIntOfDigits (strTake3 (stripDots v)) < 751
    · exfalso
      apply hne
      unfold maybe_update_floating_ips
      rw [if_pos hg]
    · push_neg at hg
      exact ⟨hg.1, le_of_not_lt (by simpa using hg.2)⟩
  · rintro ⟨hv1, hv2⟩
    have hg : ¬(v = "" ∨ pyIntOfDigits (strTake3 (stripDots v)) < 751) := by
      push_neg
      exact ⟨hv1, not_lt.mp (by simpa using not_lt.mpr hv2)⟩
    obtain ⟨t, ht⟩ := maybe_update_fst_cons fips nm v cfg hg
    rw [ht]
    simp

/-- C7 witness: the amended gate at the supported revision "7.5.1". -/
theorem flip_gate_amended_witness :
    (maybe_update_floating_ips "10.1.1.1" "255.255.255.0" "7.5.1" ⟨[]⟩).fst ≠ [] ↔
      ("7.5.1" ≠ "" ∧ 751 ≤ pyIntOfDigits (strTake3 (stripDots "7.5.1"))) :=
  flip_gate_amended "10.1.1.1" "255.255.255.0" "7.5.1" ⟨[]⟩ (Or.inr ⟨by decide, by decide⟩)

/-! ## Claim C8: floating-IP convergence cases -/

/-- C8: past the revision gate, (1) when the existing non-empty range
equals the declared list (literal ordered comparison) no mutating call is
issued and the config is unchanged; (2) when the existing range is
non-empty and the declared list is empty the frontend-network list is
cleared entirely via a config PUT followed by a quorum wait; (3) with no
frontend-network entry, and (4) with an entry holding an empty range, the
apply-initial path is taken instead of the replace path. -/
theorem flip_reconcile_cases (nm v s : String) (l : List String) (rest : List FrontendNetwork)
    (hg : ¬(v = "" ∨ pyIntOfDigits (strTake3 (stripDots v)) < 751)) (hl : l ≠ []) :
    (parseFlips s = l →
      maybe_update_floating_ips s nm v ⟨{ floating_ip_ranges := some l } :: rest⟩ =
        ([.getNetworkConfig], ⟨{ floating_ip_ranges := some l } :: rest⟩))
    ∧ maybe_update_floating_ips "" nm v ⟨{ floating_ip_ranges := some l } :: rest⟩ =
        ([.getNetworkConfig, .putNetworkConfig ⟨[]⟩, .waitQuorum], ⟨[]⟩)
    ∧ maybe_update_floating_ips s nm v ⟨[]⟩ =
        (.getNetworkConfig :: apply_initial_floating_ips (parseFlips s) nm, ⟨[]⟩)
    ∧ maybe_update_floating_ips s nm v ⟨{ floating_ip_ranges := some [] } :: rest⟩ =
        (.getNetworkConfig :: apply_initial_floating_ips (parseFlips s) nm,
         ⟨{ floating_ip_ranges := some [] } :: rest⟩) := by
  have hlen : ¬((Option.getD (some l) ([] : List String)).length = 0) := by
    simpa using hl
  refine ⟨?_, ?_, ?_, ?_⟩
  · intro hs
    unfold maybe_update_floating_ips
    rw [if_neg hg]
    dsimp only
    rw [if_neg hlen, if_neg (by simp [hs])]
  · unfold maybe_update_floating_ips
    rw [if_neg hg]
    dsimp only
    rw [if_neg hlen, if_pos (by simp [parseFlips, hl])]
    simp [parseFlips]
  · unfold maybe_update_floating_ips
    rw [if_neg hg]
  · unfold maybe_update_floating_ips
    rw [if_neg hg]
    dsimp only
    rw [if_pos (by simp)]

/-- C8 witness: the three behaviours at concrete inputs (current range
`["a","b"]` with equal declared list; declared empty; no entry with
declared list `["c"]`). -/
theorem flip_reconcile_cases_witness :
    (parseFlips "a,b" = ["a", "b"] →
      maybe_update_floating_ips "a,b" "255.255.255.0" "7.5.1"
          ⟨[{ floating_ip_ranges := some ["a", "b"] }]⟩ =
        ([.getNetworkConfig], ⟨[{ floating_ip_ranges := some ["a", "b"] }]⟩))
    ∧ maybe_update_floating_ips "" "255.255.255.0" "7.5.1"
          ⟨[{ floating_ip_ranges := some ["a", "b"] }]⟩ =
        ([.getNetworkConfig, .putNetworkConfig ⟨[]⟩, .waitQuorum], ⟨[]⟩)
    ∧ maybe_update_floating_ips "c" "255.255.255.0" "7.5.1" ⟨[]⟩ =
        (.getNetworkConfig :: apply_initial_floating_ips (parseFlips "c") "255.255.255.0", ⟨[]⟩)
    ∧ maybe_update_floating_ips "c" "255.255.255.0" "7.5.1"
          ⟨[{ floating_ip_ranges := some [] }]⟩ =
        (.getNetworkConfig :: apply_initial_floating_ips (parseFlips "c") "255.255.255.0",
         ⟨[{ floating_ip_ranges := some [] }]⟩) := by
  have h := flip_reconcile_cases "255.255.255.0" "7.5.1" "c" ["a", "b"] []
    (by decide) (by decide)
  have h2 := flip_reconcile_cases "255.255.255.0" "7.5.1" "a,b" ["a", "b"] []
    (by decide) (by decide)
  exact ⟨h2.1, h.2.1, h.2.2.1, h.2.2.2⟩

/-! ## Claim C10: applying an empty initial floating-IP set is a no-op -/

/-- C10: for every netmask, applying the initial floating-IP configuration
with an empty declared list issues no command and performs no polling; and
a reconcile that enters the apply-initial path (no frontend-network entry,
or an entry with an empty range) with an empty declared set issues at most
the read query, never mutates, never waits, and leaves the network
configuration unchanged. -/
theorem apply_initial_empty_noop (nm v : String) (cfg : NetworkConfig)
    (hcfg : cfg.frontend_networks = [] ∨
      ∃ fn rest, cfg.frontend_networks = fn :: rest
        ∧ (fn.floating_ip_ranges.getD []).length = 0) :
    apply_initial_floating_ips [] nm = []
    ∧ ((maybe_update_floating_ips "" nm v cfg).fst = []
        ∨ (maybe_update_floating_ips "" nm v cfg).fst = [.getNetworkConfig])
    ∧ (maybe_update_floating_ips "" nm v cfg).snd = cfg := by
  refine ⟨rfl, ?_⟩
  by_cases hg : v = "" ∨ pyIntOfDigits (strTake3 (stripDots v)) < 751
  · unfold maybe_update_floating_ips
    rw [if_pos hg]
    exact ⟨Or.inl rfl, rfl⟩
  · rcases cfg with ⟨fns⟩
    rcases hcfg with hnil | ⟨fn, rest, hcons, hempty⟩
    · simp only at hnil
      subst hnil
      unfold maybe_update_floating_ips
      rw [if_neg hg]
      exact ⟨Or.inr rfl, rfl⟩
    · simp only at hcons
      subst hcons
      unfold maybe_update_floating_ips
      rw [if_neg hg]
      dsimp only
      rw [if_pos hempty]
      exact ⟨Or.inr rfl, rfl⟩

/-- C10 witness: empty declared set against an empty network config at a
supported revision. -/
theorem apply_initial_empty_noop_witness :
    apply_initial_floating_ips [] "255.255.255.0" = []
    ∧ ((maybe_update_floating_ips "" "255.255.255.0" "7.5.1" ⟨[]⟩).fst = []
        ∨ (maybe_update_floating_ips "" "255.255.255.0" "7.5.1" ⟨[]⟩).fst = [.getNetworkConfig])
    ∧ (maybe_update_floating_ips "" "255.255.255.0" "7.5.1" ⟨[]⟩).snd = ⟨[]⟩ :=
  apply_initial_empty_noop "255.255.255.0" "7.5.1" ⟨[]⟩ (Or.inl rfl)

end QProvisioner
